import Mathlib

/-!
Shallow embedding of the RAPTOR data-profiling script
(`scripts/02_profile_data.py`, class `RNAseqDataProfiler`) and a
spec-modelled fragment of the package profiler's quality-flag step.

Conventions of the embedding:
* pandas `DataFrame` counts (genes as rows, samples as columns) become a
  `CountMatrix`: a list of rows of rationals together with the column count
  and a rectangularity proof.
* exact rational arithmetic (`ℚ`) replaces floating point wherever the
  script only adds, multiplies and divides; `ℝ` (with `Real.sqrt`,
  `Real.logb`) replaces it where the script calls `np.sqrt`, `np.log2`,
  `np.log10`.
* a pandas/numpy value that is NaN because a reduction had no usable data
  (sample variance of a single observation, mean of an all-NaN series) is
  modelled as `Option.none`; pandas drops NaN before the comparisons and
  reductions modelled here (`corr().stack()` drops NaN pairs, `x[x > 0]`
  drops NaN), so `none` never flows into a kept value.
* the Python profile dictionary becomes a record with one `Option` field
  per key the script ever writes; a missing key is `none`, and the
  `KeyError` a raw `profile['k']` access can raise becomes `Except.error`.
* a numpy reduction over an empty array that raises
  (`ndarray.min()` in `calculate_sample_correlation`) becomes
  `Except.error` with the numpy message.
-/

namespace Raptor

/-- A count matrix: genes as rows, samples as columns (pandas DataFrame in
the script).  `ncols` is the number of samples; every row has that width. -/
structure CountMatrix where
  rows : List (List ℚ)
  ncols : ℕ
  hrect : ∀ r ∈ rows, r.length = ncols

/-- Arithmetic mean of a list of rationals (pandas `Series.mean`);
division by zero on the empty list yields the junk value `0`. -/
def meanQ (xs : List ℚ) : ℚ := xs.sum / xs.length

/-- pandas `Series.median`: sort, take the middle element (odd length) or
the average of the two middle elements (even length). -/
def medianQ (xs : List ℚ) : ℚ :=
  let s := List.insertionSort (· ≤ ·) xs
  if xs.length % 2 = 1 then s.getD (xs.length / 2) 0
  else (s.getD (xs.length / 2 - 1) 0 + s.getD (xs.length / 2) 0) / 2

/-- pandas sample variance (`Series.var`, `ddof=1`): `none` models the NaN
pandas returns for fewer than two observations. -/
def sampleVarQ (xs : List ℚ) : Option ℚ :=
  if xs.length ≤ 1 then none
  else some ((xs.map (fun x => (x - meanQ xs) ^ 2)).sum / ((xs.length : ℚ) - 1))

/-- pandas `Series.mean` with `skipna=True` over a series that may hold
NaN entries (`none`): NaN entries are dropped, and an all-NaN series has a
NaN mean (`none`). -/
def meanOptQ (xs : List (Option ℚ)) : Option ℚ :=
  match xs.filterMap id with
  | [] => none
  | v => some (meanQ v)

/-- The sample columns of the matrix (`counts[col]` for each column). -/
def columns (m : CountMatrix) : List (List ℚ) := m.rows.transpose

/-- `len(self.counts)`: number of genes. -/
def nGenes (m : CountMatrix) : ℕ := m.rows.length

/-- `len(self.counts.columns)`: number of samples. -/
def nSamples (m : CountMatrix) : ℕ := m.ncols

/-- `self.counts.sum(axis=0)`: per-sample library sizes (column sums). -/
def librarySizes (m : CountMatrix) : List ℚ := (columns m).map List.sum

/-- `(self.counts == 0).sum().sum()`: number of zero entries. -/
def zeroCount (m : CountMatrix) : ℕ :=
  (m.rows.map (fun r => r.countP (fun x => decide (x = 0)))).sum

/-- `self.counts.size`: total number of entries. -/
def totalCount (m : CountMatrix) : ℕ := nGenes m * nSamples m

/-- `100 * zero_values / total_values`: percentage of zero entries. -/
def zeroPercentage (m : CountMatrix) : ℚ :=
  100 * (zeroCount m : ℚ) / (totalCount m : ℚ)

/-- `self.counts.mean(axis=1)`: per-gene mean counts, in row order. -/
def geneMeans (m : CountMatrix) : List ℚ := m.rows.map meanQ

/-- `self.counts.var(axis=1)`: per-gene sample variances (`ddof=1`), NaN
(`none`) for a single-sample matrix. -/
def geneVars (m : CountMatrix) : List (Option ℚ) := m.rows.map sampleVarQ

/-- The profile dictionary of `RNAseqDataProfiler`: one `Option` field per
key the script ever writes, `none` meaning the key is absent (or was set
to NaN/None, which nothing downstream distinguishes from absent). -/
structure Profile where
  n_genes : Option ℕ := none
  n_samples : Option ℕ := none
  mean_library_size : Option ℚ := none
  median_library_size : Option ℚ := none
  library_size_cv : Option ℝ := none
  mean_genes_detected : Option ℚ := none
  zero_percentage : Option ℚ := none
  mean_expression : Option ℚ := none
  median_expression : Option ℚ := none
  mean_variance : Option ℚ := none
  low_expression_genes : Option ℕ := none
  high_expression_genes : Option ℕ := none
  pct_low_expression : Option ℚ := none
  pct_high_expression : Option ℚ := none
  expression_range_log10 : Option ℝ := none
  median_bcv : Option ℝ := none
  mean_bcv : Option ℝ := none
  mean_sample_correlation : Option ℝ := none
  median_sample_correlation : Option ℝ := none
  min_sample_correlation : Option ℝ := none
  mean_genes_per_sample : Option ℚ := none
  min_genes_per_sample : Option ℕ := none
  mean_top20_percentage : Option ℚ := none
  pca_var_explained_pc1 : Option ℝ := none
  pca_var_explained_pc2 : Option ℝ := none
  potential_outliers : Option ℕ := none
  recommendations : Option (List String) := none

/-- The empty profile dictionary `self.profile = \x7b\x7d`. -/
def emptyProfile : Profile := {}

/-- `calculate_basic_stats`: sizes, library-size statistics, detected
genes per gene, zero percentage.  `library_size_cv = std/mean` uses the
sample standard deviation (`ddof=1`), hence is NaN (`none`) when there is
only one sample. -/
noncomputable def calculateBasicStats (m : CountMatrix) (p : Profile) : Profile :=
  let ls := librarySizes m
  { p with
    n_genes := some (nGenes m)
    n_samples := some (nSamples m)
    mean_library_size := some (meanQ ls)
    median_library_size := some (medianQ ls)
    library_size_cv :=
      (sampleVarQ ls).map (fun v => Real.sqrt (v : ℝ) / ((meanQ ls : ℚ) : ℝ))
    mean_genes_detected :=
      some (meanQ (m.rows.map (fun r => (r.countP (fun x => decide (0 < x)) : ℚ))))
    zero_percentage := some (zeroPercentage m) }

/-- Largest element of a list of rationals (`Series.max`), junk `0` on the
empty list (the script guards the only use with a non-emptiness check). -/
def listMaxQ : List ℚ → ℚ
  | [] => 0
  | x :: xs => xs.foldl max x

/-- Smallest element of a list of rationals (`Series.min`), junk `0` on
the empty list. -/
def listMinQ : List ℚ → ℚ
  | [] => 0
  | x :: xs => xs.foldl min x

/-- `calculate_expression_characteristics`: per-gene mean statistics,
low/high expression counts, log10 dynamic range.  `mean_variance` uses the
skipna mean because `counts.var(axis=1)` is all NaN on a single-sample
matrix.  The dynamic-range key is only written when some gene has a
positive mean. -/
noncomputable def calculateExpressionCharacteristics (m : CountMatrix) (p : Profile) : Profile :=
  let gm := geneMeans m
  let low := gm.countP (fun x => decide (x < 10))
  let high := gm.countP (fun x => decide (100 < x))
  let nz := gm.filter (fun x => decide (0 < x))
  { p with
    mean_expression := some (meanQ gm)
    median_expression := some (medianQ gm)
    mean_variance := meanOptQ (geneVars m)
    low_expression_genes := some low
    high_expression_genes := some high
    pct_low_expression := some (100 * (low : ℚ) / (gm.length : ℚ))
    pct_high_expression := some (100 * (high : ℚ) / (gm.length : ℚ))
    expression_range_log10 :=
      match nz with
      | [] => p.expression_range_log10
      | _ => some (Real.logb 10 ((listMaxQ nz : ℚ) : ℝ) - Real.logb 10 ((listMinQ nz : ℚ) : ℝ)) }

/-- `calculate_dispersion`, first half: the retained squared-BCV
estimates, in gene order.  A gene is retained when its mean is positive
and `(var - mean) / mean^2` is positive; a gene whose variance is NaN
(`none`, single-sample matrix) fails the `> 0` filter exactly as NaN does
in pandas. -/
def bcvSquaredList (m : CountMatrix) : List ℚ :=
  m.rows.filterMap (fun r =>
    if 0 < meanQ r then
      match sampleVarQ r with
      | some v =>
        let b := (v - meanQ r) / (meanQ r) ^ 2
        if 0 < b then some b else none
      | none => none
    else none)

/-- `calculate_dispersion`: writes `median_bcv = sqrt(median(bcv2))` and
`mean_bcv = sqrt(mean(bcv2))` when at least one estimate was retained,
and leaves both keys unwritten otherwise. -/
noncomputable def calculateDispersion (m : CountMatrix) (p : Profile) : Profile :=
  match bcvSquaredList m with
  | [] => p
  | l =>
    { p with
      median_bcv := some (Real.sqrt ((medianQ l : ℚ) : ℝ))
      mean_bcv := some (Real.sqrt ((meanQ l : ℚ) : ℝ)) }

/-- `np.log2(x + 1)` applied to one count. -/
noncomputable def log2p1 (x : ℚ) : ℝ := Real.logb 2 ((x : ℝ) + 1)

/-- The log-transformed sample columns `np.log2(self.counts + 1)`. -/
noncomputable def logColumns (m : CountMatrix) : List (List ℝ) :=
  (columns m).map (fun c => c.map log2p1)

/-- Arithmetic mean of a list of reals. -/
noncomputable def meanR (xs : List ℝ) : ℝ := xs.sum / xs.length

/-- Pearson correlation of two equal-length vectors, as pandas
`DataFrame.corr` computes it: `none` models the NaN produced when either
vector has zero variance (zero denominator). -/
noncomputable def pearson (x y : List ℝ) : Option ℝ :=
  let mx := meanR x
  let my := meanR y
  let sxx := (x.map (fun a => (a - mx) ^ 2)).sum
  let syy := (y.map (fun a => (a - my) ^ 2)).sum
  let sxy := (List.zipWith (fun a b => (a - mx) * (b - my)) x y).sum
  if sxx = 0 ∨ syy = 0 then none
  else some (sxy / (Real.sqrt sxx * Real.sqrt syy))

/-- All unordered pairs taken from the strict upper triangle of a
pairwise table over the given list (`np.triu(..., k=1)`). -/
def upperPairs {α : Type} : List α → List (α × α)
  | [] => []
  | x :: xs => (xs.map (fun y => (x, y))) ++ upperPairs xs

/-- The strictly-upper-triangular inter-sample correlations, in the order
`upper_tri.stack()` yields them; NaN correlations are dropped by `stack`,
which `filterMap` mirrors. -/
noncomputable def pairCorrelations (m : CountMatrix) : List ℝ :=
  (upperPairs (logColumns m)).filterMap (fun xy => pearson xy.1 xy.2)

/-- pandas median of a list of reals (same convention as `medianQ`). -/
noncomputable def medianR (xs : List ℝ) : ℝ :=
  let s := List.insertionSort (· ≤ ·) xs
  if xs.length % 2 = 1 then s.getD (xs.length / 2) 0
  else (s.getD (xs.length / 2 - 1) 0 + s.getD (xs.length / 2) 0) / 2

/-- Smallest element of a non-empty list of reals (`ndarray.min`). -/
noncomputable def listMinR : List ℝ → ℝ
  | [] => 0
  | x :: xs => xs.foldl min x

/-- The message of the `ValueError` numpy raises for `ndarray.min()` on an
empty array. -/
def corrMinError : String :=
  "zero-size array to reduction operation minimum which has no identity"

/-- `calculate_sample_correlation`: writes the mean, median and minimum of
the upper-triangle correlations.  When that array is empty (single sample,
or every pairwise correlation NaN) the mean and median are silently NaN
but `correlations.min()` raises, so the whole call fails; the `Except`
error models that exception. -/
noncomputable def calculateSampleCorrelation (m : CountMatrix) (p : Profile) :
    Except String Profile :=
  match pairCorrelations m with
  | [] => .error corrMinError
  | cs =>
    .ok { p with
      mean_sample_correlation := some (meanR cs)
      median_sample_correlation := some (medianR cs)
      min_sample_correlation := some (listMinR cs) }

/-- Smallest element of a non-empty list of naturals (`Series.min`). -/
def listMinNat : List ℕ → ℕ
  | [] => 0
  | x :: xs => xs.foldl min x

/-- One sample's top-20-gene share:
`100 * sorted_counts.head(20).sum() / sorted_counts.sum()`.  numpy float
division turns an all-zero column into NaN without raising; the junk `0`
of rational division-by-zero stands in for that NaN (no claim reads it). -/
def top20Percentage (c : List ℚ) : ℚ :=
  100 * ((List.insertionSort (fun a b => b ≤ a) c).take 20).sum / c.sum

/-- `calculate_complexity`: genes detected per sample and the mean
top-20-gene share. -/
def calculateComplexity (m : CountMatrix) (p : Profile) : Profile :=
  let gps : List ℕ := (columns m).map (fun c => c.countP (fun x => decide (0 < x)))
  { p with
    mean_genes_per_sample := some (meanQ (gps.map (fun n => (n : ℚ))))
    min_genes_per_sample := some (listMinNat gps)
    mean_top20_percentage := some (meanQ ((columns m).map top20Percentage)) }

/-- Outcome of the external `sklearn.decomposition.PCA` call in
`detect_batch_effects`: explained-variance ratios of PC1 and PC2 and the
number of z-score outliers on PC1.  The SVD behind it is an external
floating-point library routine, so it enters the embedding as a parameter;
`none` selects the `except` branch of the script's `try/except`, which the
script tolerates.  No claim reads the PCA fields, and every theorem that
evaluates the full pipeline either quantifies over this parameter or uses
`pcaUnavailable`. -/
def PcaOracle : Type := CountMatrix → Option (ℝ × ℝ × ℕ)

/-- The oracle selecting the `except` branch (PCA unavailable). -/
def pcaUnavailable : PcaOracle := fun _ => none

/-- `detect_batch_effects`: the whole body is inside `try/except`, so it
never raises; on failure only `pca_var_explained_pc1` is written (as
None). -/
def detectBatchEffects (pca : PcaOracle) (m : CountMatrix) (p : Profile) : Profile :=
  match pca m with
  | some (v1, v2, k) =>
    { p with
      pca_var_explained_pc1 := some v1
      pca_var_explained_pc2 := some v2
      potential_outliers := some k }
  | none => { p with pca_var_explained_pc1 := none }

/-- The profile after the first three (pure, never-raising) steps of
`generate_full_profile`: basic stats, expression characteristics,
dispersion. -/
noncomputable def profileBeforeCorrelation (m : CountMatrix) : Profile :=
  calculateDispersion m
    (calculateExpressionCharacteristics m (calculateBasicStats m emptyProfile))

/-- `generate_full_profile`: the six profiling steps in source order.  The
only step that can raise is `calculate_sample_correlation`; an exception
there propagates out of the method, which `Except.bind` models. -/
noncomputable def generateFullProfile (pca : PcaOracle) (m : CountMatrix) :
    Except String Profile := do
  let p4 ← calculateSampleCorrelation m (profileBeforeCorrelation m)
  .ok (detectBatchEffects pca m (calculateComplexity m p4))

/-- Recommendation string appended when `n_samples < 2`. -/
def noiseqRec : String := "Pipeline 6 (NOISeq) - designed for no replicates"

/-- Recommendation string appended when `n_samples <= 3` (and not `< 2`). -/
def ebseqRec : String := "Pipeline 7 (EBSeq) - optimized for small sample sizes"

/-- First recommendation string appended when `n_samples >= 6`. -/
def deseq2Rec : String := "Pipeline 1 (STAR-RSEM-DESeq2) - gold standard for adequate samples"

/-- Second recommendation string appended when `n_samples >= 6`. -/
def limmaRec : String := "Pipeline 5 (limma-voom) - excellent for complex designs"

/-- Recommendation string appended when `mean_library_size < 10e6`. -/
def lowCoverageRec : String :=
  "Pipeline 3 (Salmon) or Pipeline 4 (Kallisto) - efficient for lower coverage"

/-- Advisory string appended when `zero_percentage > 70`. -/
def filterGenesRec : String := "Consider filtering lowly expressed genes"

/-- First recommendation string appended when `min_sample_correlation < 0.7`. -/
def limmaBatchRec : String := "Pipeline 5 (limma-voom) - can handle batch effects"

/-- Second recommendation string appended when `min_sample_correlation < 0.7`. -/
def batchCorrectionRec : String := "Consider batch correction"

/-- Recommendation string appended when `n_samples > 20`. -/
def fastRec : String :=
  "Pipeline 3 (Salmon) or Pipeline 4 (Kallisto) - faster for large datasets"

/-- The sample-size rule family of `recommend_pipeline` (the
`if n_samples < 2 / elif <= 3 / elif >= 6` chain): its contribution to the
recommendation list. -/
def sampleSizeRecs (n : ℕ) : List String :=
  if n < 2 then [noiseqRec]
  else if n ≤ 3 then [ebseqRec]
  else if 6 ≤ n then [deseq2Rec, limmaRec]
  else []

/-- The library-size rule of `recommend_pipeline`
(`mean_library_size < 10e6`). -/
def librarySizeRecs (ml : ℚ) : List String :=
  if ml < 10000000 then [lowCoverageRec] else []

/-- The zero-inflation rule of `recommend_pipeline`
(`zero_percentage > 70`). -/
def zeroInflationRecs (zp : ℚ) : List String :=
  if 70 < zp then [filterGenesRec] else []

/-- The correlation rule of `recommend_pipeline`
(`min_sample_correlation < 0.7`). -/
noncomputable def correlationRecs (mc : ℝ) : List String :=
  if mc < 7 / 10 then [limmaBatchRec, batchCorrectionRec] else []

/-- The speed rule of `recommend_pipeline` (`n_samples > 20`). -/
def speedRecs (n : ℕ) : List String :=
  if 20 < n then [fastRec] else []

/-- The full recommendation list `recommend_pipeline` builds, in append
order of its five rule blocks. -/
noncomputable def allRecs (ns : ℕ) (ml : ℚ) (zp : ℚ) (mc : ℝ) : List String :=
  sampleSizeRecs ns ++ librarySizeRecs ml ++ zeroInflationRecs zp ++
    correlationRecs mc ++ speedRecs ns

/-- A raw dictionary access `self.profile[k]`: raises `KeyError` when the
key is absent. -/
def getKey {α : Type} (o : Option α) (k : String) : Except String α :=
  match o with
  | some v => .ok v
  | none => .error ("KeyError: " ++ k)

/-- `recommend_pipeline`: reads `n_samples`, `mean_library_size`,
`zero_percentage` and `min_sample_correlation` with raw dictionary
accesses (in that order), appends the five rule blocks, stores the list
under the `recommendations` key of the profile, and returns it. -/
noncomputable def recommendPipeline (p : Profile) :
    Except String (Profile × List String) := do
  let ns ← getKey p.n_samples "n_samples"
  let ml ← getKey p.mean_library_size "mean_library_size"
  let zp ← getKey p.zero_percentage "zero_percentage"
  let mc ← getKey p.min_sample_correlation "min_sample_correlation"
  let recs := allRecs ns ml zp mc
  .ok ({ p with recommendations := some recs }, recs)

/-- `generate_full_profile` followed by `recommend_pipeline`, projected to
the top (first) recommendation, as `main` chains them. -/
noncomputable def topRecommendation (pca : PcaOracle) (m : CountMatrix) :
    Except String (Option String) := do
  let p ← generateFullProfile pca m
  let pr ← recommendPipeline p
  .ok pr.2.head?

/-- Quality flag for `n_samples < 3`. -/
def lowSampleFlag : String := "too few samples for robust variance estimation"

/-- Quality flag for high zero inflation. -/
def zeroInflationFlag : String := "high zero inflation - consider filtering"

/-- Quality flag for uneven library sizes. -/
def unevenLibraryFlag : String := "uneven library sizes"

/-- Quality flag for PCA-detected outlier samples. -/
def outlierFlag (n : ℕ) : String := toString n ++ " potential outlier sample(s) detected"

/-- Modelled from the spec: the quality-flag step of the package profiler
(`raptor/profiler.py`, whose source is absent; only its tests and callers
are present).  Spec 4.2 step 8: append one flag string for each of
`n_samples < 3`, zero inflation above a threshold in the 0.5-0.7 band
(0-1 scale), library-size CV above a threshold in the 0.3-0.5 band, and
any PCA-detected outlier samples.  The two thresholds are parameters
because the spec gives only their bands. -/
def qualityFlags (zThr cvThr : ℚ) (ns : ℕ) (zeroInflation cv : ℚ) (nOutliers : ℕ) :
    List String :=
  (if ns < 3 then [lowSampleFlag] else []) ++
    (if zThr < zeroInflation then [zeroInflationFlag] else []) ++
    (if cvThr < cv then [unevenLibraryFlag] else []) ++
    (if 0 < nOutliers then [outlierFlag nOutliers] else [])

/-- Concrete failing input for the single-sample crash: the 3-gene,
1-sample matrix of the repository's own single-sample test
(`tests/test_profiler.py`, `test_single_sample`). -/
def singleSampleMatrix : CountMatrix :=
  { rows := [[100], [200], [150]], ncols := 1, hrect := by decide }

/-- Concrete 2-gene, 2-sample matrix with identical columns; its exact
log2 profile is computable because the log-counts are 0 and 2. -/
def twoSampleMatrix : CountMatrix :=
  { rows := [[0, 0], [3, 3]], ncols := 2, hrect := by decide }

/-- Concrete 2-gene, 2-sample matrix whose retained squared-BCV estimates
are 1 and 3/2. -/
def bcvMatrix : CountMatrix :=
  { rows := [[0, 2], [0, 4]], ncols := 2, hrect := by decide }

/-- A second definition, following the spec sentence of the dispersion
claim word for word: the mean of `sqrt(bcv2)` taken across the retained
genes (square root applied per gene, before averaging). -/
noncomputable def specMeanSqrtBcv (m : CountMatrix) : ℝ :=
  meanR ((bcvSquaredList m).map (fun b => Real.sqrt ((b : ℚ) : ℝ)))

/-- A profile with every key the recommender consults except
`min_sample_correlation`. -/
def missingCorrProfile : Profile :=
  { n_samples := some 2, mean_library_size := some 3, zero_percentage := some 50 }

/-- A complete 4-sample profile (as far as the recommender is concerned). -/
def completeProfile4 : Profile :=
  { n_samples := some 4, mean_library_size := some 20000000
    zero_percentage := some 10, min_sample_correlation := some 1 }

/-- A complete 6-sample profile. -/
def completeProfile6 : Profile :=
  { n_samples := some 6, mean_library_size := some 20000000
    zero_percentage := some 10, min_sample_correlation := some 1 }

/-- A complete 2-sample profile. -/
def completeProfile2 : Profile :=
  { n_samples := some 2, mean_library_size := some 3
    zero_percentage := some 50, min_sample_correlation := some 1 }

/-- A complete 6-sample profile with high zero inflation. -/
def zeroInflatedProfile : Profile :=
  { n_genes := some 10, n_samples := some 6, mean_library_size := some 3
    zero_percentage := some 80, min_sample_correlation := some 1 }

/-- The recommendation list for `zeroInflatedProfile`. -/
def zeroInflatedRecs : List String := [deseq2Rec, limmaRec, lowCoverageRec, filterGenesRec]

/-! ## Theorems -/

/-- Evaluation of `recommend_pipeline` on a profile holding all four keys
it consults: no exception, and the result is the five rule blocks in
order, stored in the profile and returned. -/
theorem recommendPipeline_complete (p : Profile) (ns : ℕ) (ml zp : ℚ) (mc : ℝ)
    (h1 : p.n_samples = some ns) (h2 : p.mean_library_size = some ml)
    (h3 : p.zero_percentage = some zp) (h4 : p.min_sample_correlation = some mc) :
    recommendPipeline p =
      .ok ({ p with recommendations := some (allRecs ns ml zp mc) }, allRecs ns ml zp mc) := by
  unfold recommendPipeline
  rw [h1, h2, h3, h4]
  rfl

/-- C4, counterexample: on a profile missing the `min_sample_correlation`
key the recommender does not skip the correlation rule; the raw dictionary
access raises `KeyError`, contradicting the claim that it never raises. -/
theorem c4_missing_key_raises :
    recommendPipeline missingCorrProfile =
      Except.error ("KeyError: min_sample_correlation") := rfl

/-- C4, amended: the rule-based recommender raises a `KeyError` when one
of the four profile fields it consults is missing; on every profile that
does contain `n_samples`, `mean_library_size`, `zero_percentage` and
`min_sample_correlation` it never raises and returns the five rule blocks
in order. -/
theorem c4_complete_profile_never_raises (p : Profile) (ns : ℕ) (ml zp : ℚ) (mc : ℝ)
    (h1 : p.n_samples = some ns) (h2 : p.mean_library_size = some ml)
    (h3 : p.zero_percentage = some zp) (h4 : p.min_sample_correlation = some mc) :
    recommendPipeline p =
      .ok ({ p with recommendations := some (allRecs ns ml zp mc) }, allRecs ns ml zp mc) :=
  recommendPipeline_complete p ns ml zp mc h1 h2 h3 h4

/-- C4, witness: the amended theorem evaluated on a concrete complete
profile. -/
theorem c4_witness :
    completeProfile4.n_samples = some 4 ∧
    completeProfile4.mean_library_size = some 20000000 ∧
    completeProfile4.zero_percentage = some 10 ∧
    completeProfile4.min_sample_correlation = some 1 ∧
    recommendPipeline completeProfile4 =
      .ok ({ completeProfile4 with recommendations := some (allRecs 4 20000000 10 1) },
        allRecs 4 20000000 10 1) :=
  ⟨rfl, rfl, rfl, rfl,
    c4_complete_profile_never_raises completeProfile4 4 20000000 10 1 rfl rfl rfl rfl⟩

/-- C6: the sample-size rule family recommends the no-replicate pipeline
(Pipeline 6, NOISeq) when `n_samples < 2`, the small-sample pipeline
(Pipeline 7, EBSeq) when `n_samples` is in [2,3], and both standard
pipelines (Pipeline 1 and Pipeline 5) when `n_samples >= 6`. -/
theorem c6_sample_size_rules (p : Profile) (ns : ℕ) (ml zp : ℚ) (mc : ℝ)
    (h1 : p.n_samples = some ns) (h2 : p.mean_library_size = some ml)
    (h3 : p.zero_percentage = some zp) (h4 : p.min_sample_correlation = some mc)
    (q : Profile) (recs : List String)
    (hr : recommendPipeline p = .ok (q, recs)) :
    (ns < 2 → noiseqRec ∈ recs) ∧
    ((2 ≤ ns ∧ ns ≤ 3) → ebseqRec ∈ recs) ∧
    (6 ≤ ns → deseq2Rec ∈ recs ∧ limmaRec ∈ recs) := by
  rw [recommendPipeline_complete p ns ml zp mc h1 h2 h3 h4] at hr
  obtain ⟨-, rfl⟩ : _ ∧ allRecs ns ml zp mc = recs := by
    simpa [Prod.ext_iff] using hr
  refine ⟨fun h => ?_, fun h => ?_, fun h => ?_⟩
  · simp [allRecs, sampleSizeRecs, h]
  · have hn : ¬ ns < 2 := by omega
    simp [allRecs, sampleSizeRecs, hn, h.2]
  · have hn : ¬ ns < 2 := by omega
    have hn3 : ¬ ns ≤ 3 := by omega
    constructor <;> simp [allRecs, sampleSizeRecs, hn, hn3, h]

/-- C6, witness: the theorem applied to a concrete complete 6-sample
profile. -/
theorem c6_witness :
    completeProfile6.n_samples = some 6 ∧
    ((6 < 2 → noiseqRec ∈ allRecs 6 20000000 10 1) ∧
     ((2 ≤ 6 ∧ 6 ≤ 3) → ebseqRec ∈ allRecs 6 20000000 10 1) ∧
     (6 ≤ 6 → deseq2Rec ∈ allRecs 6 20000000 10 1 ∧ limmaRec ∈ allRecs 6 20000000 10 1)) :=
  ⟨rfl, c6_sample_size_rules completeProfile6 6 20000000 10 1 rfl rfl rfl rfl _ _
    (recommendPipeline_complete completeProfile6 6 20000000 10 1 rfl rfl rfl rfl)⟩

/-- C8: when `zero_percentage` exceeds the fixed threshold 70 (percentage
scale), the zero-inflation rule contributes exactly the advisory
gene-filtering string; every other block of the output is the other
rules' contribution, unchanged, and the recommender keeps no pipeline
scores anywhere that this rule could alter. -/
theorem c8_zero_inflation_advisory (p : Profile) (ns : ℕ) (ml zp : ℚ) (mc : ℝ)
    (h1 : p.n_samples = some ns) (h2 : p.mean_library_size = some ml)
    (h3 : p.zero_percentage = some zp) (h4 : p.min_sample_correlation = some mc)
    (hz : 70 < zp) :
    zeroInflationRecs zp = [filterGenesRec] ∧
    recommendPipeline p =
      .ok ({ p with recommendations := some (sampleSizeRecs ns ++ librarySizeRecs ml ++
              [filterGenesRec] ++ correlationRecs mc ++ speedRecs ns) },
        sampleSizeRecs ns ++ librarySizeRecs ml ++ [filterGenesRec] ++
          correlationRecs mc ++ speedRecs ns) := by
  have hzr : zeroInflationRecs zp = [filterGenesRec] := by
    simp [zeroInflationRecs, hz]
  refine ⟨hzr, ?_⟩
  rw [recommendPipeline_complete p ns ml zp mc h1 h2 h3 h4]
  simp [allRecs, hzr]

/-- C8, witness: the theorem applied to a concrete profile with 80% zero
entries. -/
theorem c8_witness :
    zeroInflatedProfile.zero_percentage = some 80 ∧ (70 : ℚ) < 80 ∧
    (zeroInflationRecs 80 = [filterGenesRec] ∧
     recommendPipeline zeroInflatedProfile =
       .ok ({ zeroInflatedProfile with recommendations := some (sampleSizeRecs 6 ++
               librarySizeRecs 3 ++ [filterGenesRec] ++ correlationRecs 1 ++ speedRecs 6) },
         sampleSizeRecs 6 ++ librarySizeRecs 3 ++ [filterGenesRec] ++
           correlationRecs 1 ++ speedRecs 6)) :=
  ⟨rfl, by norm_num,
    c8_zero_inflation_advisory zeroInflatedProfile 6 3 80 1 rfl rfl rfl rfl (by norm_num)⟩

/-- C9, counterexample: calling the recommender on a computed profile does
not leave the profile mapping unchanged; it adds the `recommendations`
key. -/
theorem c9_recommend_mutates_profile :
    recommendPipeline zeroInflatedProfile =
      .ok ({ zeroInflatedProfile with recommendations := some (allRecs 6 3 80 1) },
        allRecs 6 3 80 1) ∧
    { zeroInflatedProfile with recommendations := some (allRecs 6 3 80 1) } ≠
      zeroInflatedProfile := by
  refine ⟨recommendPipeline_complete zeroInflatedProfile 6 3 80 1 rfl rfl rfl rfl, fun h => ?_⟩
  have h2 := congrArg Profile.recommendations h
  simp [zeroInflatedProfile] at h2

/-- C9, amended: the recommender leaves every descriptor key of the
profile unchanged and adds exactly one key, `recommendations`, holding the
returned list. -/
theorem c9_only_recommendations_added (p : Profile) (ns : ℕ) (ml zp : ℚ) (mc : ℝ)
    (h1 : p.n_samples = some ns) (h2 : p.mean_library_size = some ml)
    (h3 : p.zero_percentage = some zp) (h4 : p.min_sample_correlation = some mc)
    (q : Profile) (recs : List String)
    (hr : recommendPipeline p = .ok (q, recs)) :
    q.n_genes = p.n_genes ∧ q.n_samples = p.n_samples ∧
    q.mean_library_size = p.mean_library_size ∧
    q.median_library_size = p.median_library_size ∧
    q.library_size_cv = p.library_size_cv ∧
    q.mean_genes_detected = p.mean_genes_detected ∧
    q.zero_percentage = p.zero_percentage ∧
    q.mean_expression = p.mean_expression ∧
    q.median_expression = p.median_expression ∧
    q.mean_variance = p.mean_variance ∧
    q.low_expression_genes = p.low_expression_genes ∧
    q.high_expression_genes = p.high_expression_genes ∧
    q.pct_low_expression = p.pct_low_expression ∧
    q.pct_high_expression = p.pct_high_expression ∧
    q.expression_range_log10 = p.expression_range_log10 ∧
    q.median_bcv = p.median_bcv ∧
    q.mean_bcv = p.mean_bcv ∧
    q.mean_sample_correlation = p.mean_sample_correlation ∧
    q.median_sample_correlation = p.median_sample_correlation ∧
    q.min_sample_correlation = p.min_sample_correlation ∧
    q.mean_genes_per_sample = p.mean_genes_per_sample ∧
    q.min_genes_per_sample = p.min_genes_per_sample ∧
    q.mean_top20_percentage = p.mean_top20_percentage ∧
    q.pca_var_explained_pc1 = p.pca_var_explained_pc1 ∧
    q.pca_var_explained_pc2 = p.pca_var_explained_pc2 ∧
    q.potential_outliers = p.potential_outliers ∧
    q.recommendations = some recs := by
  rw [recommendPipeline_complete p ns ml zp mc h1 h2 h3 h4] at hr
  obtain ⟨rfl, rfl⟩ : { p with recommendations := some (allRecs ns ml zp mc) } = q ∧
      allRecs ns ml zp mc = recs := by
    simpa [Prod.ext_iff] using hr
  exact ⟨rfl, rfl, rfl, rfl, rfl, rfl, rfl, rfl, rfl, rfl, rfl, rfl, rfl, rfl, rfl,
    rfl, rfl, rfl, rfl, rfl, rfl, rfl, rfl, rfl, rfl, rfl, rfl⟩

/-- C9, witness: the amended theorem evaluated on a concrete profile. -/
theorem c9_witness :
    completeProfile2.n_samples = some 2 ∧
    (({ completeProfile2 with recommendations := some (allRecs 2 3 50 1) } : Profile).n_genes
        = completeProfile2.n_genes ∧
      ({ completeProfile2 with recommendations := some (allRecs 2 3 50 1) } : Profile).n_samples
        = completeProfile2.n_samples) ∧
    ({ completeProfile2 with recommendations := some (allRecs 2 3 50 1) } : Profile).recommendations
      = some (allRecs 2 3 50 1) := by
  have h := c9_only_recommendations_added completeProfile2 2 3 50 1 rfl rfl rfl rfl _ _
    (recommendPipeline_complete completeProfile2 2 3 50 1 rfl rfl rfl rfl)
  exact ⟨rfl, ⟨h.1, h.2.1⟩, h.2.2.2.2.2.2.2.2.2.2.2.2.2.2.2.2.2.2.2.2.2.2.2.2.2.2⟩

/-- C10: with 4 or 5 samples, the mutually exclusive if/elif sample-size
chain triggers no clause at all, so the output holds no sample-size-based
recommendation: it is exactly the other four rules' contribution. -/
theorem c10_no_sample_size_rec_for_4_or_5 (p : Profile) (ns : ℕ) (ml zp : ℚ) (mc : ℝ)
    (h1 : p.n_samples = some ns) (h2 : p.mean_library_size = some ml)
    (h3 : p.zero_percentage = some zp) (h4 : p.min_sample_correlation = some mc)
    (h45 : ns = 4 ∨ ns = 5)
    (q : Profile) (recs : List String)
    (hr : recommendPipeline p = .ok (q, recs)) :
    sampleSizeRecs ns = [] ∧
    recs = librarySizeRecs ml ++ zeroInflationRecs zp ++ correlationRecs mc ++ speedRecs ns := by
  have hs : sampleSizeRecs ns = [] := by
    rcases h45 with h | h <;> subst h <;> rfl
  rw [recommendPipeline_complete p ns ml zp mc h1 h2 h3 h4] at hr
  obtain ⟨-, rfl⟩ : _ ∧ allRecs ns ml zp mc = recs := by
    simpa [Prod.ext_iff] using hr
  exact ⟨hs, by simp [allRecs, hs]⟩

/-- C10, witness: the theorem evaluated on a concrete complete 4-sample
profile. -/
theorem c10_witness :
    completeProfile4.n_samples = some 4 ∧ (4 = 4 ∨ 4 = 5) ∧
    (sampleSizeRecs 4 = [] ∧
     allRecs 4 20000000 10 1 =
       librarySizeRecs 20000000 ++ zeroInflationRecs 10 ++ correlationRecs 1 ++ speedRecs 4) :=
  ⟨rfl, Or.inl rfl,
    c10_no_sample_size_rec_for_4_or_5 completeProfile4 4 20000000 10 1 rfl rfl rfl rfl
      (Or.inl rfl) _ _
      (recommendPipeline_complete completeProfile4 4 20000000 10 1 rfl rfl rfl rfl)⟩

/-- C5, amended: for every profile with exactly 2 samples (and the other
consulted keys present) the recommender's top (first) choice is the
small-sample pipeline, Pipeline 7 (EBSeq); the no-replicate entry
(Pipeline 6, NOISeq) is top only below 2 samples. -/
theorem c5_two_sample_top_is_ebseq (p : Profile) (ml zp : ℚ) (mc : ℝ)
    (h1 : p.n_samples = some 2) (h2 : p.mean_library_size = some ml)
    (h3 : p.zero_percentage = some zp) (h4 : p.min_sample_correlation = some mc)
    (q : Profile) (recs : List String)
    (hr : recommendPipeline p = .ok (q, recs)) :
    recs.head? = some ebseqRec := by
  rw [recommendPipeline_complete p 2 ml zp mc h1 h2 h3 h4] at hr
  obtain ⟨-, rfl⟩ : _ ∧ allRecs 2 ml zp mc = recs := by
    simpa [Prod.ext_iff] using hr
  simp [allRecs, sampleSizeRecs]

/-- C5, witness: the amended theorem evaluated on a concrete complete
2-sample profile. -/
theorem c5_witness :
    completeProfile2.n_samples = some 2 ∧
    (allRecs 2 3 50 1).head? = some ebseqRec :=
  ⟨rfl, c5_two_sample_top_is_ebseq completeProfile2 3 50 1 rfl rfl rfl rfl _ _
    (recommendPipeline_complete completeProfile2 2 3 50 1 rfl rfl rfl rfl)⟩

/-- C2: the spec-modelled quality-flag step emits exactly one flag string
per triggered condition, for any zero-inflation threshold in the 0.5-0.7
band and any library-CV threshold in the 0.3-0.5 band: the list length is
the number of triggered conditions and each triggered condition
contributes its flag. -/
theorem c2_quality_flags_per_condition (zThr cvThr : ℚ)
    (hz1 : 1 / 2 ≤ zThr) (hz2 : zThr ≤ 7 / 10)
    (hc1 : 3 / 10 ≤ cvThr) (hc2 : cvThr ≤ 1 / 2)
    (ns : ℕ) (zi cv : ℚ) (k : ℕ) :
    (qualityFlags zThr cvThr ns zi cv k).length =
      ((if ns < 3 then 1 else 0) + (if zThr < zi then 1 else 0) +
        (if cvThr < cv then 1 else 0) + (if 0 < k then 1 else 0)) ∧
    (ns < 3 → lowSampleFlag ∈ qualityFlags zThr cvThr ns zi cv k) ∧
    (zThr < zi → zeroInflationFlag ∈ qualityFlags zThr cvThr ns zi cv k) ∧
    (cvThr < cv → unevenLibraryFlag ∈ qualityFlags zThr cvThr ns zi cv k) ∧
    (0 < k → outlierFlag k ∈ qualityFlags zThr cvThr ns zi cv k) := by
  unfold qualityFlags
  refine ⟨?_, fun h => ?_, fun h => ?_, fun h => ?_, fun h => ?_⟩
  · by_cases a : ns < 3 <;> by_cases b : zThr < zi <;> by_cases c : cvThr < cv <;>
      by_cases d : 0 < k <;> simp [a, b, c, d]
  · simp [h]
  · simp [h]
  · simp [h]
  · simp [h]

/-- C2, witness: the theorem evaluated with thresholds 0.6 and 0.4 on a
profile triggering all four conditions. -/
theorem c2_witness :
    (1 / 2 : ℚ) ≤ 3 / 5 ∧ (3 / 5 : ℚ) ≤ 7 / 10 ∧
    (3 / 10 : ℚ) ≤ 2 / 5 ∧ (2 / 5 : ℚ) ≤ 1 / 2 ∧
    ((qualityFlags (3 / 5) (2 / 5) 2 (4 / 5) (1 / 2) 1).length =
      ((if 2 < 3 then 1 else 0) + (if (3 / 5 : ℚ) < 4 / 5 then 1 else 0) +
        (if (2 / 5 : ℚ) < 1 / 2 then 1 else 0) + (if 0 < 1 then 1 else 0)) ∧
     (2 < 3 → lowSampleFlag ∈ qualityFlags (3 / 5) (2 / 5) 2 (4 / 5) (1 / 2) 1) ∧
     ((3 / 5 : ℚ) < 4 / 5 → zeroInflationFlag ∈ qualityFlags (3 / 5) (2 / 5) 2 (4 / 5) (1 / 2) 1) ∧
     ((2 / 5 : ℚ) < 1 / 2 → unevenLibraryFlag ∈ qualityFlags (3 / 5) (2 / 5) 2 (4 / 5) (1 / 2) 1) ∧
     (0 < 1 → outlierFlag 1 ∈ qualityFlags (3 / 5) (2 / 5) 2 (4 / 5) (1 / 2) 1)) :=
  ⟨by norm_num, by norm_num, by norm_num, by norm_num,
    c2_quality_flags_per_condition (3 / 5) (2 / 5) (by norm_num) (by norm_num)
      (by norm_num) (by norm_num) 2 (4 / 5) (1 / 2) 1⟩

/-- Sum of a constant map over a list of naturals. -/
theorem sum_map_const_nat {α : Type} (l : List α) (n : ℕ) :
    (l.map (fun _ => n)).sum = l.length * n := by
  induction l with
  | nil => simp
  | cons a t ih => simp [ih, Nat.succ_mul, Nat.add_comm]

/-- Two pointwise-ordered natural-valued maps over a list have equal sums
iff they agree on every element. -/
theorem sum_map_nat_eq_iff {α : Type} (l : List α) (f g : α → ℕ)
    (h : ∀ r ∈ l, f r ≤ g r) :
    (l.map f).sum = (l.map g).sum ↔ ∀ r ∈ l, f r = g r := by
  induction l with
  | nil => simp
  | cons a t ih =>
    have ha := h a (List.mem_cons_self a t)
    have ht : ∀ r ∈ t, f r ≤ g r := fun r hr => h r (List.mem_cons_of_mem a hr)
    have hsum : (t.map f).sum ≤ (t.map g).sum := List.sum_le_sum ht
    simp only [List.map_cons, List.sum_cons]
    constructor
    · intro he r hr
      have hcomp : f a = g a ∧ (t.map f).sum = (t.map g).sum := by omega
      rcases List.mem_cons.mp hr with h1 | h1
      · exact h1 ▸ hcomp.1
      · exact ((ih ht).mp hcomp.2) r h1
    · intro he
      have h1 : f a = g a := he a (List.mem_cons_self a t)
      have h2 : (t.map f).sum = (t.map g).sum :=
        (ih ht).mpr (fun r hr => he r (List.mem_cons_of_mem a hr))
      omega

/-- The number of zero entries never exceeds the number of entries. -/
theorem zeroCount_le_totalCount (m : CountMatrix) : zeroCount m ≤ totalCount m := by
  unfold zeroCount totalCount nGenes nSamples
  calc (m.rows.map (fun r => r.countP (fun x => decide (x = 0)))).sum
      ≤ (m.rows.map (fun _ => m.ncols)).sum := by
        refine List.sum_le_sum (fun r hr => ?_)
        calc r.countP (fun x => decide (x = 0)) ≤ r.length := List.countP_le_length _
          _ = m.ncols := m.hrect r hr
    _ = m.rows.length * m.ncols := sum_map_const_nat m.rows m.ncols

/-- The total entry count as a sum of row lengths. -/
theorem totalCount_eq_sum_lengths (m : CountMatrix) :
    totalCount m = (m.rows.map (fun r => r.length)).sum := by
  unfold totalCount nGenes nSamples
  have hmap : m.rows.map (fun r => r.length) = m.rows.map (fun _ => m.ncols) :=
    List.map_congr_left (fun r hr => m.hrect r hr)
  rw [hmap, sum_map_const_nat]

/-- C7: `calculate_basic_stats` stores `zero_percentage` as
`100 * zeros / total`; on a non-empty matrix that value lies in [0, 100],
is 100 exactly when every entry is zero, and is 0 exactly when no entry is
zero. -/
theorem c7_zero_percentage_invariant (m : CountMatrix)
    (hrows : m.rows ≠ []) (hcols : 0 < m.ncols) (p : Profile) :
    (calculateBasicStats m p).zero_percentage = some (zeroPercentage m) ∧
    0 ≤ zeroPercentage m ∧ zeroPercentage m ≤ 100 ∧
    (zeroPercentage m = 100 ↔ ∀ r ∈ m.rows, ∀ x ∈ r, x = 0) ∧
    (zeroPercentage m = 0 ↔ ∀ r ∈ m.rows, ∀ x ∈ r, x ≠ 0) := by
  have htot : 0 < totalCount m :=
    Nat.mul_pos (List.length_pos.mpr hrows) hcols
  have htotQ : (0 : ℚ) < (totalCount m : ℚ) := by exact_mod_cast htot
  have hzc := zeroCount_le_totalCount m
  have hallzero : (zeroCount m = totalCount m) ↔ ∀ r ∈ m.rows, ∀ x ∈ r, x = 0 := by
    unfold zeroCount
    rw [totalCount_eq_sum_lengths m]
    rw [sum_map_nat_eq_iff m.rows _ _ (fun r _ => List.countP_le_length _)]
    constructor
    · intro h r hr x hx
      have := (List.countP_eq_length.mp (h r hr)) x hx
      simpa using this
    · intro h r hr
      exact List.countP_eq_length.mpr (fun x hx => by simpa using h r hr x hx)
  have hnozero : (zeroCount m = 0) ↔ ∀ r ∈ m.rows, ∀ x ∈ r, x ≠ 0 := by
    unfold zeroCount
    rw [List.sum_eq_zero_iff]
    constructor
    · intro h r hr x hx
      have hc : r.countP (fun x => decide (x = 0)) = 0 :=
        h _ (List.mem_map.mpr ⟨r, hr, rfl⟩)
      have := (List.countP_eq_zero.mp hc) x hx
      simpa using this
    · intro h n hn
      obtain ⟨r, hr, rfl⟩ := List.mem_map.mp hn
      exact List.countP_eq_zero.mpr (fun x hx => by simpa using h r hr x hx)
  refine ⟨rfl, ?_, ?_, ?_, ?_⟩
  · unfold zeroPercentage
    positivity
  · unfold zeroPercentage
    rw [div_le_iff htotQ]
    have : (zeroCount m : ℚ) ≤ (totalCount m : ℚ) := by exact_mod_cast hzc
    nlinarith
  · unfold zeroPercentage
    rw [div_eq_iff (ne_of_gt htotQ)]
    rw [← hallzero]
    constructor
    · intro h
      have : (zeroCount m : ℚ) = (totalCount m : ℚ) := by linarith
      exact_mod_cast this
    · intro h
      rw [h]
  · unfold zeroPercentage
    rw [div_eq_zero_iff]
    rw [← hnozero]
    constructor
    · intro h
      rcases h with h | h
      · have : (zeroCount m : ℚ) = 0 := by linarith
        exact_mod_cast this
      · exact absurd h (ne_of_gt htotQ)
    · intro h
      left
      rw [h]
      norm_num

/-- C7, witness: the theorem evaluated on the concrete 2-by-2 matrix with
two zero entries (50% zeros). -/
theorem c7_witness :
    twoSampleMatrix.rows ≠ [] ∧ 0 < twoSampleMatrix.ncols ∧
    ((calculateBasicStats twoSampleMatrix emptyProfile).zero_percentage =
        some (zeroPercentage twoSampleMatrix) ∧
      0 ≤ zeroPercentage twoSampleMatrix ∧ zeroPercentage twoSampleMatrix ≤ 100 ∧
      (zeroPercentage twoSampleMatrix = 100 ↔
        ∀ r ∈ twoSampleMatrix.rows, ∀ x ∈ r, x = 0) ∧
      (zeroPercentage twoSampleMatrix = 0 ↔
        ∀ r ∈ twoSampleMatrix.rows, ∀ x ∈ r, x ≠ 0)) :=
  ⟨by decide, by decide,
    c7_zero_percentage_invariant twoSampleMatrix (by decide) (by decide) emptyProfile⟩

/-- C3, counterexample: on the matrix with retained squared-BCV estimates
1 and 3/2, the stored `mean_bcv` (the script's `sqrt` of the mean) differs
from the claim's mean of `sqrt(bcv2)` across the retained genes. -/
theorem c3_counterexample :
    (calculateDispersion bcvMatrix emptyProfile).mean_bcv ≠
      some (specMeanSqrtBcv bcvMatrix) := by
  have hb : bcvSquaredList bcvMatrix = [1, 3 / 2] := by
    norm_num [bcvSquaredList, bcvMatrix, meanQ, sampleVarQ, List.filterMap_cons]
  have hmean : meanQ [(1 : ℚ), 3 / 2] = 5 / 4 := by norm_num [meanQ]
  have h1 : (calculateDispersion bcvMatrix emptyProfile).mean_bcv =
      some (Real.sqrt ((5 : ℝ) / 4)) := by
    unfold calculateDispersion
    rw [hb]
    norm_num [hmean]
  have h2 : specMeanSqrtBcv bcvMatrix = (Real.sqrt 1 + Real.sqrt ((3 : ℝ) / 2)) / 2 := by
    unfold specMeanSqrtBcv meanR
    rw [hb]
    norm_num
  intro hEq
  rw [h1, h2] at hEq
  have e : Real.sqrt ((5 : ℝ) / 4) = (Real.sqrt 1 + Real.sqrt ((3 : ℝ) / 2)) / 2 :=
    Option.some_injective ℝ hEq
  rw [Real.sqrt_one] at e
  have h32 : Real.sqrt ((3 : ℝ) / 2) ^ 2 = 3 / 2 := Real.sq_sqrt (by norm_num)
  have h54 : Real.sqrt ((5 : ℝ) / 4) ^ 2 = 5 / 4 := Real.sq_sqrt (by norm_num)
  have e2 : (5 : ℝ) / 4 = ((1 + Real.sqrt ((3 : ℝ) / 2)) / 2) ^ 2 := by
    rw [← h54, e]
  have hs : Real.sqrt ((3 : ℝ) / 2) = 5 / 4 := by nlinarith [h32]
  rw [hs] at h32
  norm_num at h32

/-- C3, amended: `calculate_dispersion` stores
`mean_bcv = sqrt(mean(bcv2))` and `median_bcv = sqrt(median(bcv2))` over
the retained positive squared-BCV estimates — the square root is applied
after aggregating, not per gene. -/
theorem c3_bcv_aggregation (m : CountMatrix) (p : Profile)
    (h : bcvSquaredList m ≠ []) :
    (calculateDispersion m p).mean_bcv =
      some (Real.sqrt
        ((((bcvSquaredList m).sum / ((bcvSquaredList m).length : ℚ) : ℚ) : ℝ))) ∧
    (calculateDispersion m p).median_bcv =
      some (Real.sqrt ((medianQ (bcvSquaredList m) : ℚ) : ℝ)) := by
  unfold calculateDispersion
  rcases hb : bcvSquaredList m with _ | ⟨a, l⟩
  · exact absurd hb h
  · exact ⟨rfl, rfl⟩

/-- C3, witness: the amended theorem evaluated on the concrete matrix with
retained estimates 1 and 3/2. -/
theorem c3_witness :
    bcvSquaredList bcvMatrix ≠ [] ∧
    ((calculateDispersion bcvMatrix emptyProfile).mean_bcv =
       some (Real.sqrt
         ((((bcvSquaredList bcvMatrix).sum /
             ((bcvSquaredList bcvMatrix).length : ℚ) : ℚ) : ℝ))) ∧
     (calculateDispersion bcvMatrix emptyProfile).median_bcv =
       some (Real.sqrt ((medianQ (bcvSquaredList bcvMatrix) : ℚ) : ℝ))) := by
  have hb : bcvSquaredList bcvMatrix = [1, 3 / 2] := by
    norm_num [bcvSquaredList, bcvMatrix, meanQ, sampleVarQ, List.filterMap_cons]
  have hne : bcvSquaredList bcvMatrix ≠ [] := by rw [hb]; simp
  exact ⟨hne, c3_bcv_aggregation bcvMatrix emptyProfile hne⟩

/-- Binding a successful `Except` computation runs the continuation. -/
theorem exceptBindOk {e a b : Type} (x : a) (f : a → Except e b) :
    (do
      let y ← (Except.ok x : Except e a)
      f y) = f x := rfl

/-- The columns of the single-sample matrix: one column of three genes. -/
theorem columns_singleSample : columns singleSampleMatrix = [[100, 200, 150]] := rfl

/-- With one sample there is no pair of columns, so the upper-triangle
correlation array is empty. -/
theorem pairCorrelations_singleSample : pairCorrelations singleSampleMatrix = [] := by
  unfold pairCorrelations logColumns
  rw [columns_singleSample]
  rfl

/-- On the single-sample matrix, `calculate_sample_correlation` raises
(numpy `ValueError` from `min()` over the empty correlation array),
whatever profile it starts from. -/
theorem calculateSampleCorrelation_singleSample (p : Profile) :
    calculateSampleCorrelation singleSampleMatrix p = .error corrMinError := by
  unfold calculateSampleCorrelation
  rw [pairCorrelations_singleSample]

/-- C1: profiling the well-formed single-sample matrix raises instead of
degrading: `generate_full_profile` propagates the `ValueError` raised in
`calculate_sample_correlation` by `correlations.min()` on the empty
upper-triangle array, for every outcome of the external PCA step (which is
never reached). -/
theorem c1_single_sample_profiling_raises (pca : PcaOracle) :
    generateFullProfile pca singleSampleMatrix = Except.error corrMinError := by
  unfold generateFullProfile
  rw [calculateSampleCorrelation_singleSample]
  rfl

/-- The columns of the two-sample matrix are identical. -/
theorem columns_twoSample : columns twoSampleMatrix = [[0, 3], [0, 3]] := rfl

/-- `log2(0 + 1) = 0`. -/
theorem log2p1_zero : log2p1 0 = 0 := by
  unfold log2p1
  norm_num [Real.logb_one]

/-- `log2(3 + 1) = 2`. -/
theorem log2p1_three : log2p1 3 = 2 := by
  unfold log2p1
  rw [show ((3 : ℚ) : ℝ) + 1 = 2 ^ (2 : ℕ) by norm_num]
  rw [Real.logb_pow, Real.logb_self_eq_one (by norm_num)]
  norm_num

/-- The log-transformed columns of the two-sample matrix. -/
theorem logColumns_twoSample : logColumns twoSampleMatrix = [[0, 2], [0, 2]] := by
  unfold logColumns
  rw [columns_twoSample]
  simp [log2p1_zero, log2p1_three]

/-- Pearson correlation of the identical non-constant column with itself
is exactly 1. -/
theorem pearson_self_column : pearson [(0 : ℝ), 2] [(0 : ℝ), 2] = some 1 := by
  unfold pearson meanR
  norm_num

/-- The two-sample matrix has exactly one pairwise correlation, equal
to 1. -/
theorem pairCorrelations_twoSample : pairCorrelations twoSampleMatrix = [1] := by
  unfold pairCorrelations
  rw [logColumns_twoSample]
  simp [upperPairs, pearson_self_column]

/-- `calculate_sample_correlation` on the two-sample matrix: mean, median
and minimum of the singleton correlation array are all 1. -/
theorem calculateSampleCorrelation_twoSample (p : Profile) :
    calculateSampleCorrelation twoSampleMatrix p =
      .ok { p with
        mean_sample_correlation := some 1
        median_sample_correlation := some 1
        min_sample_correlation := some 1 } := by
  unfold calculateSampleCorrelation
  rw [pairCorrelations_twoSample]
  norm_num [meanR, medianR, listMinR, List.insertionSort, List.orderedInsert]

/-- The full profile of the two-sample matrix (with the external PCA step
failing, which the script tolerates), spelled as the chain of the five
successful steps. -/
noncomputable def fullTwoProfile : Profile :=
  detectBatchEffects pcaUnavailable twoSampleMatrix
    (calculateComplexity twoSampleMatrix
      { profileBeforeCorrelation twoSampleMatrix with
        mean_sample_correlation := some 1
        median_sample_correlation := some 1
        min_sample_correlation := some 1 })

/-- Profiling the two-sample matrix succeeds and yields `fullTwoProfile`. -/
theorem generateFullProfile_twoSample :
    generateFullProfile pcaUnavailable twoSampleMatrix = .ok fullTwoProfile := by
  unfold generateFullProfile fullTwoProfile
  rw [calculateSampleCorrelation_twoSample, exceptBindOk]

/-- The library sizes of the two-sample matrix. -/
theorem librarySizes_twoSample : librarySizes twoSampleMatrix = [3, 3] := by
  unfold librarySizes
  rw [columns_twoSample]
  norm_num

/-- `calculate_basic_stats` writes `n_samples`. -/
theorem calculateBasicStats_n_samples (m : CountMatrix) (p : Profile) :
    (calculateBasicStats m p).n_samples = some (nSamples m) := rfl

/-- `calculate_basic_stats` writes `mean_library_size`. -/
theorem calculateBasicStats_mean_library_size (m : CountMatrix) (p : Profile) :
    (calculateBasicStats m p).mean_library_size = some (meanQ (librarySizes m)) := rfl

/-- `calculate_basic_stats` writes `zero_percentage`. -/
theorem calculateBasicStats_zero_percentage (m : CountMatrix) (p : Profile) :
    (calculateBasicStats m p).zero_percentage = some (zeroPercentage m) := rfl

/-- `calculate_expression_characteristics` keeps `n_samples`. -/
theorem exprStats_n_samples (m : CountMatrix) (p : Profile) :
    (calculateExpressionCharacteristics m p).n_samples = p.n_samples := rfl

/-- `calculate_expression_characteristics` keeps `mean_library_size`. -/
theorem exprStats_mean_library_size (m : CountMatrix) (p : Profile) :
    (calculateExpressionCharacteristics m p).mean_library_size = p.mean_library_size := rfl

/-- `calculate_expression_characteristics` keeps `zero_percentage`. -/
theorem exprStats_zero_percentage (m : CountMatrix) (p : Profile) :
    (calculateExpressionCharacteristics m p).zero_percentage = p.zero_percentage := rfl

/-- `calculate_dispersion` keeps `n_samples`. -/
theorem dispersion_n_samples (m : CountMatrix) (p : Profile) :
    (calculateDispersion m p).n_samples = p.n_samples := by
  unfold calculateDispersion
  cases bcvSquaredList m <;> rfl

/-- `calculate_dispersion` keeps `mean_library_size`. -/
theorem dispersion_mean_library_size (m : CountMatrix) (p : Profile) :
    (calculateDispersion m p).mean_library_size = p.mean_library_size := by
  unfold calculateDispersion
  cases bcvSquaredList m <;> rfl

/-- `calculate_dispersion` keeps `zero_percentage`. -/
theorem dispersion_zero_percentage (m : CountMatrix) (p : Profile) :
    (calculateDispersion m p).zero_percentage = p.zero_percentage := by
  unfold calculateDispersion
  cases bcvSquaredList m <;> rfl

/-- `calculate_complexity` keeps `n_samples`. -/
theorem complexity_n_samples (m : CountMatrix) (p : Profile) :
    (calculateComplexity m p).n_samples = p.n_samples := rfl

/-- `calculate_complexity` keeps `mean_library_size`. -/
theorem complexity_mean_library_size (m : CountMatrix) (p : Profile) :
    (calculateComplexity m p).mean_library_size = p.mean_library_size := rfl

/-- `calculate_complexity` keeps `zero_percentage`. -/
theorem complexity_zero_percentage (m : CountMatrix) (p : Profile) :
    (calculateComplexity m p).zero_percentage = p.zero_percentage := rfl

/-- `calculate_complexity` keeps `min_sample_correlation`. -/
theorem complexity_min_sample_correlation (m : CountMatrix) (p : Profile) :
    (calculateComplexity m p).min_sample_correlation = p.min_sample_correlation := rfl

/-- `detect_batch_effects` keeps `n_samples`. -/
theorem detectBatchEffects_n_samples (pca : PcaOracle) (m : CountMatrix) (p : Profile) :
    (detectBatchEffects pca m p).n_samples = p.n_samples := by
  unfold detectBatchEffects
  rcases pca m with _ | ⟨v1, v2, k⟩ <;> rfl

/-- `detect_batch_effects` keeps `mean_library_size`. -/
theorem detectBatchEffects_mean_library_size (pca : PcaOracle) (m : CountMatrix) (p : Profile) :
    (detectBatchEffects pca m p).mean_library_size = p.mean_library_size := by
  unfold detectBatchEffects
  rcases pca m with _ | ⟨v1, v2, k⟩ <;> rfl

/-- `detect_batch_effects` keeps `zero_percentage`. -/
theorem detectBatchEffects_zero_percentage (pca : PcaOracle) (m : CountMatrix) (p : Profile) :
    (detectBatchEffects pca m p).zero_percentage = p.zero_percentage := by
  unfold detectBatchEffects
  rcases pca m with _ | ⟨v1, v2, k⟩ <;> rfl

/-- `detect_batch_effects` keeps `min_sample_correlation`. -/
theorem detectBatchEffects_min_sample_correlation (pca : PcaOracle) (m : CountMatrix) (p : Profile) :
    (detectBatchEffects pca m p).min_sample_correlation = p.min_sample_correlation := by
  unfold detectBatchEffects
  rcases pca m with _ | ⟨v1, v2, k⟩ <;> rfl

/-- `n_samples` of the two-sample profile. -/
theorem fullTwoProfile_n_samples : fullTwoProfile.n_samples = some 2 := by
  unfold fullTwoProfile
  rw [detectBatchEffects_n_samples, complexity_n_samples]
  show (profileBeforeCorrelation twoSampleMatrix).n_samples = some 2
  unfold profileBeforeCorrelation
  rw [dispersion_n_samples, exprStats_n_samples, calculateBasicStats_n_samples]
  rfl

/-- `mean_library_size` of the two-sample profile. -/
theorem fullTwoProfile_mean_library_size :
    fullTwoProfile.mean_library_size = some 3 := by
  unfold fullTwoProfile
  rw [detectBatchEffects_mean_library_size, complexity_mean_library_size]
  show (profileBeforeCorrelation twoSampleMatrix).mean_library_size = some 3
  unfold profileBeforeCorrelation
  rw [dispersion_mean_library_size, exprStats_mean_library_size,
    calculateBasicStats_mean_library_size, librarySizes_twoSample]
  norm_num [meanQ]

/-- `zero_percentage` of the two-sample profile: half the entries are 0. -/
theorem fullTwoProfile_zero_percentage :
    fullTwoProfile.zero_percentage = some 50 := by
  unfold fullTwoProfile
  rw [detectBatchEffects_zero_percentage, complexity_zero_percentage]
  show (profileBeforeCorrelation twoSampleMatrix).zero_percentage = some 50
  unfold profileBeforeCorrelation
  rw [dispersion_zero_percentage, exprStats_zero_percentage,
    calculateBasicStats_zero_percentage]
  have hz : zeroPercentage twoSampleMatrix = 50 := by
    unfold zeroPercentage zeroCount totalCount nGenes nSamples twoSampleMatrix
    norm_num [List.countP_cons]
  rw [hz]

/-- `min_sample_correlation` of the two-sample profile. -/
theorem fullTwoProfile_min_sample_correlation :
    fullTwoProfile.min_sample_correlation = some 1 := by
  unfold fullTwoProfile
  rw [detectBatchEffects_min_sample_correlation, complexity_min_sample_correlation]

/-- C5, counterexample: the two-sample matrix profiles successfully, and
the recommender's top (first) choice for it is the small-sample entry
Pipeline 7 (EBSeq), not the no-replicate entry Pipeline 6 (NOISeq) that
the claim names. -/
theorem c5_counterexample :
    nSamples twoSampleMatrix = 2 ∧
    topRecommendation pcaUnavailable twoSampleMatrix = .ok (some ebseqRec) ∧
    ebseqRec ≠ noiseqRec := by
  refine ⟨rfl, ?_, by decide⟩
  unfold topRecommendation
  rw [generateFullProfile_twoSample, exceptBindOk]
  rw [recommendPipeline_complete fullTwoProfile 2 3 50 1
    fullTwoProfile_n_samples fullTwoProfile_mean_library_size
    fullTwoProfile_zero_percentage fullTwoProfile_min_sample_correlation]
  rw [exceptBindOk]
  simp [allRecs, sampleSizeRecs]

end Raptor
